import Mathlib

/-!
Shallow embedding of `rcdemo.py` (steemit/rcdemo): the resource-credit
cost engine.  Python's unbounded integers are modelled as `Int`, Python's
floor division `//` and arithmetic right shift `>>` as `Int.fdiv` (by a
power of two for the shift), and Python exceptions (`AttributeError` from
the reflective `getattr` dispatch, `ZeroDivisionError`, the undefined
`Serializer` name) as `Except String`.
-/

/-- Object-size configuration table: the attributes set on the Python
`SizeInfo` object from `resource_params["size_info"]["resource_state_bytes"]`. -/
structure SizeInfo where
  authority_base_size : Int
  authority_account_member_size : Int
  authority_key_member_size : Int
  account_object_base_size : Int
  account_authority_object_base_size : Int
  account_recovery_request_object_base_size : Int
  comment_object_base_size : Int
  comment_object_permlink_char_size : Int
  comment_object_parent_permlink_char_size : Int
  comment_object_beneficiaries_member_size : Int
  comment_vote_object_base_size : Int
  convert_request_object_base_size : Int
  decline_voting_rights_request_object_base_size : Int
  escrow_object_base_size : Int
  limit_order_object_base_size : Int
  savings_withdraw_object_byte_size : Int
  transaction_object_base_size : Int
  transaction_object_byte_size : Int
  vesting_delegation_object_base_size : Int
  vesting_delegation_expiration_object_base_size : Int
  withdraw_vesting_route_object_base_size : Int
  witness_object_base_size : Int
  witness_object_url_char_size : Int
  witness_vote_object_base_size : Int
  STATE_BYTES_SCALE : Int

/-- Execution-time configuration table: the attributes read off the Python
`ExecInfo` object by the visitor methods.  The sample configuration in the
source file does not list the `smt_*` and `claim_reward_balance2` entries;
visiting such an operation with the sample table would raise
`AttributeError` in Python, and no claim exercises them. -/
structure ExecInfo where
  account_create_operation_exec_time : Int
  account_create_with_delegation_operation_exec_time : Int
  account_update_operation_exec_time : Int
  account_witness_proxy_operation_exec_time : Int
  account_witness_vote_operation_exec_time : Int
  cancel_transfer_from_savings_operation_exec_time : Int
  change_recovery_account_operation_exec_time : Int
  claim_account_operation_exec_time : Int
  claim_reward_balance_operation_exec_time : Int
  claim_reward_balance2_operation_exec_time : Int
  comment_operation_exec_time : Int
  comment_options_operation_exec_time : Int
  convert_operation_exec_time : Int
  create_claimed_account_operation_exec_time : Int
  custom_operation_exec_time : Int
  custom_json_operation_exec_time : Int
  custom_binary_operation_exec_time : Int
  decline_voting_rights_operation_exec_time : Int
  delegate_vesting_shares_operation_exec_time : Int
  delete_comment_operation_exec_time : Int
  escrow_approve_operation_exec_time : Int
  escrow_dispute_operation_exec_time : Int
  escrow_release_operation_exec_time : Int
  escrow_transfer_operation_exec_time : Int
  feed_publish_operation_exec_time : Int
  limit_order_cancel_operation_exec_time : Int
  limit_order_create_operation_exec_time : Int
  limit_order_create2_operation_exec_time : Int
  request_account_recovery_operation_exec_time : Int
  set_withdraw_vesting_route_operation_exec_time : Int
  smt_setup_operation_exec_time : Int
  smt_cap_reveal_operation_exec_time : Int
  smt_refund_operation_exec_time : Int
  smt_setup_emissions_operation_exec_time : Int
  smt_set_setup_parameters_operation_exec_time : Int
  smt_set_runtime_parameters_operation_exec_time : Int
  smt_create_operation_exec_time : Int
  transfer_from_savings_operation_exec_time : Int
  transfer_operation_exec_time : Int
  transfer_to_savings_operation_exec_time : Int
  transfer_to_vesting_operation_exec_time : Int
  vote_operation_exec_time : Int
  withdraw_vesting_operation_exec_time : Int
  witness_set_properties_operation_exec_time : Int
  witness_update_operation_exec_time : Int

/-- Authority record as used by `get_authority_byte_count`: only the two
member lists matter (their lengths are billed). -/
structure Authority where
  account_auths : List (String × Int)
  key_auths : List (String × Int)

/-- Tagged payloads dispatched by `getattr(self, "visit_" + tag)`.  There is a
single namespace of `visit_*` handlers shared by top-level operations and by
`comment_options` extensions, so both are drawn from this one type.  Each
constructor carries exactly the payload fields its Python handler reads;
handlers that ignore their argument are nullary.  `unknown tag` stands for
any tag with no `visit_` handler: dispatching it raises `AttributeError`. -/
inductive Op where
  | account_create_operation (owner active posting : Authority)
  | account_create_with_delegation_operation (owner active posting : Authority)
  | account_witness_vote_operation
  | comment_operation (permlink parent_permlink : String)
  | comment_payout_beneficiaries (beneficiaries : List (String × Int))
  | comment_options_operation (extensions : List Op)
  | convert_operation
  | create_claimed_account_operation (owner active posting : Authority)
  | decline_voting_rights_operation
  | delegate_vesting_shares_operation
  | escrow_transfer_operation
  | limit_order_create_operation (fill_or_kill : Bool)
  | limit_order_create2_operation (fill_or_kill : Bool)
  | request_account_recovery_operation
  | set_withdraw_vesting_route_operation
  | vote_operation
  | witness_update_operation (url : String)
  | transfer_operation
  | transfer_to_vesting_operation
  | transfer_to_savings_operation
  | transfer_from_savings_operation
  | claim_reward_balance_operation
  | withdraw_vesting_operation
  | account_update_operation
  | account_witness_proxy_operation
  | cancel_transfer_from_savings_operation
  | change_recovery_account_operation
  | claim_account_operation (fee_amount : Int)
  | custom_operation
  | custom_json_operation
  | custom_binary_operation
  | delete_comment_operation
  | escrow_approve_operation
  | escrow_dispute_operation
  | escrow_release_operation
  | feed_publish_operation
  | limit_order_cancel_operation
  | witness_set_properties_operation
  | claim_reward_balance2_operation
  | smt_setup_operation
  | smt_cap_reveal_operation
  | smt_refund_operation
  | smt_setup_emissions_operation
  | smt_set_setup_parameters_operation
  | smt_set_runtime_parameters_operation
  | smt_create_operation
  | allowed_vote_assets
  | recover_account_operation
  | pow_operation
  | pow2_operation
  | report_over_production_operation
  | reset_account_operation
  | set_reset_account_operation
  | fill_convert_request_operation
  | author_reward_operation
  | curation_reward_operation
  | comment_reward_operation
  | liquidity_reward_operation
  | interest_operation
  | fill_vesting_withdraw_operation
  | fill_order_operation
  | shutdown_witness_operation
  | fill_transfer_from_savings_operation
  | hardfork_operation
  | comment_payout_update_operation
  | return_vesting_delegation_operation
  | comment_benefactor_reward_operation
  | producer_reward_operation
  | clear_null_account_balance_operation
  | unknown (tag : String)

/-- Transaction: the aggregator only reads `tx["operations"]` (the serialized
length is passed in separately). -/
structure Tx where
  operations : List Op

/-- Accumulator state of the Python `CountOperationVisitor`: the four
counters initialised to zero in `__init__` (the `size_info` / `exec_info`
configuration held by the Python object is passed to `visit` explicitly). -/
structure CountOperationVisitor where
  market_op_count : Int
  new_account_op_count : Int
  state_bytes_count : Int
  execution_time_count : Int
deriving DecidableEq

/-- Freshly constructed visitor: all four counters zero. -/
def CountOperationVisitor.init : CountOperationVisitor :=
  { market_op_count := 0
    new_account_op_count := 0
    state_bytes_count := 0
    execution_time_count := 0 }

/-- Python `CountOperationVisitor.get_authority_byte_count`. -/
def get_authority_byte_count (si : SizeInfo) (auth : Authority) : Int :=
  si.authority_base_size
    + si.authority_account_member_size * (auth.account_auths.length : Int)
    + si.authority_key_member_size * (auth.key_auths.length : Int)

mutual

/-- One step of `getattr(vtor, "visit_" + tag)(value)`: run the handler for
the given tagged payload, or fail as `AttributeError` does when no `visit_`
handler exists.  Each branch transcribes the corresponding Python
`visit_*` method body. -/
def visit (si : SizeInfo) (ei : ExecInfo) (s : CountOperationVisitor) :
    Op → Except String CountOperationVisitor
  | .account_create_operation owner active posting =>
      .ok { s with
        state_bytes_count := s.state_bytes_count
          + (si.account_object_base_size
            + si.account_authority_object_base_size
            + get_authority_byte_count si owner
            + get_authority_byte_count si active
            + get_authority_byte_count si posting)
        execution_time_count := s.execution_time_count + ei.account_create_operation_exec_time }
  | .account_create_with_delegation_operation owner active posting =>
      .ok { s with
        state_bytes_count := s.state_bytes_count
          + (si.account_object_base_size
            + si.account_authority_object_base_size
            + get_authority_byte_count si owner
            + get_authority_byte_count si active
            + get_authority_byte_count si posting
            + si.vesting_delegation_object_base_size)
        execution_time_count := s.execution_time_count + ei.account_create_with_delegation_operation_exec_time }
  | .account_witness_vote_operation =>
      .ok { s with
        state_bytes_count := s.state_bytes_count + si.witness_vote_object_base_size
        execution_time_count := s.execution_time_count + ei.account_witness_vote_operation_exec_time }
  | .comment_operation permlink parent_permlink =>
      .ok { s with
        state_bytes_count := s.state_bytes_count
          + (si.comment_object_base_size
            + si.comment_object_permlink_char_size * (permlink.utf8ByteSize : Int)
            + si.comment_object_parent_permlink_char_size * (parent_permlink.utf8ByteSize : Int))
        execution_time_count := s.execution_time_count + ei.comment_operation_exec_time }
  | .comment_payout_beneficiaries beneficiaries =>
      .ok { s with
        state_bytes_count := s.state_bytes_count
          + si.comment_object_beneficiaries_member_size * (beneficiaries.length : Int) }
  | .comment_options_operation extensions => do
      let s' ← visitList si ei s extensions
      .ok { s' with
        execution_time_count := s'.execution_time_count + ei.comment_options_operation_exec_time }
  | .convert_operation =>
      .ok { s with
        state_bytes_count := s.state_bytes_count + si.convert_request_object_base_size
        execution_time_count := s.execution_time_count + ei.convert_operation_exec_time }
  | .create_claimed_account_operation owner active posting =>
      .ok { s with
        state_bytes_count := s.state_bytes_count
          + (si.account_object_base_size
            + si.account_authority_object_base_size
            + get_authority_byte_count si owner
            + get_authority_byte_count si active
            + get_authority_byte_count si posting)
        execution_time_count := s.execution_time_count + ei.create_claimed_account_operation_exec_time }
  | .decline_voting_rights_operation =>
      .ok { s with
        state_bytes_count := s.state_bytes_count + si.decline_voting_rights_request_object_base_size
        execution_time_count := s.execution_time_count + ei.decline_voting_rights_operation_exec_time }
  | .delegate_vesting_shares_operation =>
      .ok { s with
        state_bytes_count := s.state_bytes_count
          + max si.vesting_delegation_object_base_size si.vesting_delegation_expiration_object_base_size
        execution_time_count := s.execution_time_count + ei.delegate_vesting_shares_operation_exec_time }
  | .escrow_transfer_operation =>
      .ok { s with
        state_bytes_count := s.state_bytes_count + si.escrow_object_base_size
        execution_time_count := s.execution_time_count + ei.escrow_transfer_operation_exec_time }
  | .limit_order_create_operation fill_or_kill =>
      .ok { s with
        state_bytes_count := s.state_bytes_count
          + (if fill_or_kill then 0 else si.limit_order_object_base_size)
        execution_time_count := s.execution_time_count + ei.limit_order_create_operation_exec_time
        market_op_count := s.market_op_count + 1 }
  | .limit_order_create2_operation fill_or_kill =>
      .ok { s with
        state_bytes_count := s.state_bytes_count
          + (if fill_or_kill then 0 else si.limit_order_object_base_size)
        execution_time_count := s.execution_time_count + ei.limit_order_create2_operation_exec_time
        market_op_count := s.market_op_count + 1 }
  | .request_account_recovery_operation =>
      .ok { s with
        state_bytes_count := s.state_bytes_count + si.account_recovery_request_object_base_size
        execution_time_count := s.execution_time_count + ei.request_account_recovery_operation_exec_time }
  | .set_withdraw_vesting_route_operation =>
      .ok { s with
        state_bytes_count := s.state_bytes_count + si.withdraw_vesting_route_object_base_size
        execution_time_count := s.execution_time_count + ei.set_withdraw_vesting_route_operation_exec_time }
  | .vote_operation =>
      .ok { s with
        state_bytes_count := s.state_bytes_count + si.comment_vote_object_base_size
        execution_time_count := s.execution_time_count + ei.vote_operation_exec_time }
  | .witness_update_operation url =>
      .ok { s with
        state_bytes_count := s.state_bytes_count
          + (si.witness_object_base_size
            + si.witness_object_url_char_size * (url.utf8ByteSize : Int))
        execution_time_count := s.execution_time_count + ei.witness_update_operation_exec_time }
  | .transfer_operation =>
      .ok { s with
        execution_time_count := s.execution_time_count + ei.transfer_operation_exec_time
        market_op_count := s.market_op_count + 1 }
  | .transfer_to_vesting_operation =>
      .ok { s with
        execution_time_count := s.execution_time_count + ei.transfer_to_vesting_operation_exec_time
        market_op_count := s.market_op_count + 1 }
  | .transfer_to_savings_operation =>
      .ok { s with
        execution_time_count := s.execution_time_count + ei.transfer_to_savings_operation_exec_time }
  | .transfer_from_savings_operation =>
      .ok { s with
        state_bytes_count := s.state_bytes_count + si.savings_withdraw_object_byte_size
        execution_time_count := s.execution_time_count + ei.transfer_from_savings_operation_exec_time }
  | .claim_reward_balance_operation =>
      .ok { s with
        execution_time_count := s.execution_time_count + ei.claim_reward_balance_operation_exec_time }
  | .withdraw_vesting_operation =>
      .ok { s with
        execution_time_count := s.execution_time_count + ei.withdraw_vesting_operation_exec_time }
  | .account_update_operation =>
      .ok { s with
        execution_time_count := s.execution_time_count + ei.account_update_operation_exec_time }
  | .account_witness_proxy_operation =>
      .ok { s with
        execution_time_count := s.execution_time_count + ei.account_witness_proxy_operation_exec_time }
  | .cancel_transfer_from_savings_operation =>
      .ok { s with
        execution_time_count := s.execution_time_count + ei.cancel_transfer_from_savings_operation_exec_time }
  | .change_recovery_account_operation =>
      .ok { s with
        execution_time_count := s.execution_time_count + ei.change_recovery_account_operation_exec_time }
  | .claim_account_operation fee_amount =>
      .ok { s with
        execution_time_count := s.execution_time_count + ei.claim_account_operation_exec_time
        new_account_op_count := s.new_account_op_count + (if fee_amount = 0 then 1 else 0) }
  | .custom_operation =>
      .ok { s with
        execution_time_count := s.execution_time_count + ei.custom_operation_exec_time }
  | .custom_json_operation =>
      .ok { s with
        execution_time_count := s.execution_time_count + ei.custom_json_operation_exec_time }
  | .custom_binary_operation =>
      .ok { s with
        execution_time_count := s.execution_time_count + ei.custom_binary_operation_exec_time }
  | .delete_comment_operation =>
      .ok { s with
        execution_time_count := s.execution_time_count + ei.delete_comment_operation_exec_time }
  | .escrow_approve_operation =>
      .ok { s with
        execution_time_count := s.execution_time_count + ei.escrow_approve_operation_exec_time }
  | .escrow_dispute_operation =>
      .ok { s with
        execution_time_count := s.execution_time_count + ei.escrow_dispute_operation_exec_time }
  | .escrow_release_operation =>
      .ok { s with
        execution_time_count := s.execution_time_count + ei.escrow_release_operation_exec_time }
  | .feed_publish_operation =>
      .ok { s with
        execution_time_count := s.execution_time_count + ei.feed_publish_operation_exec_time }
  | .limit_order_cancel_operation =>
      .ok { s with
        execution_time_count := s.execution_time_count + ei.limit_order_cancel_operation_exec_time }
  | .witness_set_properties_operation =>
      .ok { s with
        execution_time_count := s.execution_time_count + ei.witness_set_properties_operation_exec_time }
  | .claim_reward_balance2_operation =>
      .ok { s with
        execution_time_count := s.execution_time_count + ei.claim_reward_balance2_operation_exec_time }
  | .smt_setup_operation =>
      .ok { s with
        execution_time_count := s.execution_time_count + ei.smt_setup_operation_exec_time }
  | .smt_cap_reveal_operation =>
      .ok { s with
        execution_time_count := s.execution_time_count + ei.smt_cap_reveal_operation_exec_time }
  | .smt_refund_operation =>
      .ok { s with
        execution_time_count := s.execution_time_count + ei.smt_refund_operation_exec_time }
  | .smt_setup_emissions_operation =>
      .ok { s with
        execution_time_count := s.execution_time_count + ei.smt_setup_emissions_operation_exec_time }
  | .smt_set_setup_parameters_operation =>
      .ok { s with
        execution_time_count := s.execution_time_count + ei.smt_set_setup_parameters_operation_exec_time }
  | .smt_set_runtime_parameters_operation =>
      .ok { s with
        execution_time_count := s.execution_time_count + ei.smt_set_runtime_parameters_operation_exec_time }
  | .smt_create_operation =>
      .ok { s with
        execution_time_count := s.execution_time_count + ei.smt_create_operation_exec_time }
  | .allowed_vote_assets => .ok s
  | .recover_account_operation => .ok s
  | .pow_operation => .ok s
  | .pow2_operation => .ok s
  | .report_over_production_operation => .ok s
  | .reset_account_operation => .ok s
  | .set_reset_account_operation => .ok s
  | .fill_convert_request_operation => .ok s
  | .author_reward_operation => .ok s
  | .curation_reward_operation => .ok s
  | .comment_reward_operation => .ok s
  | .liquidity_reward_operation => .ok s
  | .interest_operation => .ok s
  | .fill_vesting_withdraw_operation => .ok s
  | .fill_order_operation => .ok s
  | .shutdown_witness_operation => .ok s
  | .fill_transfer_from_savings_operation => .ok s
  | .hardfork_operation => .ok s
  | .comment_payout_update_operation => .ok s
  | .return_vesting_delegation_operation => .ok s
  | .comment_benefactor_reward_operation => .ok s
  | .producer_reward_operation => .ok s
  | .clear_null_account_balance_operation => .ok s
  | .unknown tag => .error ("AttributeError: visit_" ++ tag)

/-- Visit a list of tagged payloads left to right, threading the
accumulator; the first failing dispatch aborts.  This is the shared loop
shape of `for op in tx["operations"]` in `ResourceCounter.__call__` and
`for e in op["extensions"]` in `visit_comment_options_operation`. -/
def visitList (si : SizeInfo) (ei : ExecInfo) (s : CountOperationVisitor) :
    List Op → Except String CountOperationVisitor
  | [] => .ok s
  | op :: rest => do
      let s' ← visit si ei s op
      visitList si ei s' rest

end

/-- Per-resource map over the five resource names, in the iteration order of
`resource_params["resource_names"]` in the sample configuration (which is
also the key order of the `resource_count` OrderedDict built by
`ResourceCounter.__call__`). -/
structure ResourceMap (α : Type) where
  resource_history_bytes : α
  resource_new_accounts : α
  resource_market_bytes : α
  resource_state_bytes : α
  resource_execution_time : α
deriving DecidableEq

/-- Five-dimensional usage vector: the `resource_count` dictionary. -/
abbrev UsageVector := ResourceMap Int

/-- The configuration a `ResourceCounter` extracts from `resource_params`
in its `__init__` (the `size_info` and `exec_info` attribute objects). -/
structure ResourceCounter where
  size_info : SizeInfo
  exec_info : ExecInfo

/-- Python `ResourceCounter.__call__(tx, tx_size)`.  When `tx_size < 0` the
code constructs `Serializer()`, a name not defined anywhere in the file, so
that path raises `NameError`.  Otherwise: `resource_history_bytes` is the
serialized size; the visitor runs over every operation (an unknown tag
aborts with `AttributeError`); `resource_new_accounts` comes from the
claim-account counter; `resource_market_bytes` is the serialized size if
any market operation was seen, else 0; `resource_state_bytes` adds the
per-transaction base and per-byte terms to the accumulated state bytes.
The line adding `vtor.execution_time_count` to `resource_execution_time`
is commented out in the source, so that component stays 0. -/
def ResourceCounter.call (rc : ResourceCounter) (tx : Tx) (tx_size : Int) :
    Except String UsageVector :=
  if tx_size < 0 then
    .error "NameError: name Serializer is not defined"
  else do
    let vtor ← visitList rc.size_info rc.exec_info CountOperationVisitor.init tx.operations
    .ok
      { resource_history_bytes := 0 + tx_size
        resource_new_accounts := 0 + vtor.new_account_op_count
        resource_market_bytes := if vtor.market_op_count > 0 then 0 + tx_size else 0
        resource_state_bytes := 0 +
          (rc.size_info.transaction_object_base_size
            + rc.size_info.transaction_object_byte_size * tx_size
            + vtor.state_bytes_count)
        resource_execution_time := 0 }

/-- Price-curve parameters `{coeff_a, coeff_b, shift}`.  `shift` is a
shift count, necessarily non-negative in Python (a negative shift raises
`ValueError`), hence `Nat`. -/
structure CurveParams where
  coeff_a : Int
  coeff_b : Int
  shift : Nat

/-- Positive-usage branch of `compute_rc_cost_of_resource`: the body below
the sign tests, for `resource_count > 0`.  Python `num >>= shift` is an
arithmetic right shift on an unbounded integer, i.e. floor division by
`2 ^ shift`; `num // denom` is floor division; a zero denominator raises
`ZeroDivisionError`. -/
def compute_rc_cost_pos (curve_params : CurveParams) (current_pool resource_count rc_regen : Int) :
    Except String Int :=
  let num := rc_regen
  let num := num * curve_params.coeff_a
  let num := Int.fdiv num ((2 : Int) ^ curve_params.shift)
  let num := num + 1
  let num := num * resource_count
  let denom := curve_params.coeff_b
  let denom := denom + max current_pool 0
  if denom = 0 then
    .error "ZeroDivisionError: integer division or modulo by zero"
  else
    let num_denom := Int.fdiv num denom
    .ok (num_denom + 1)

/-- Python `compute_rc_cost_of_resource`.  The source's negative branch
returns `-compute_rc_cost_of_resource(params, pool, -resource_count, regen)`;
since `-resource_count > 0` there, that recursive call lands in the
positive branch, so it is written here as a direct call to
`compute_rc_cost_pos` (the recursive equation is recovered as
`compute_rc_cost_of_resource_neg` below), keeping the definition
structurally recursion-free and hence kernel-computable. -/
def compute_rc_cost_of_resource (curve_params : CurveParams)
    (current_pool resource_count rc_regen : Int) : Except String Int :=
  if resource_count ≤ 0 then
    if resource_count < 0 then
      (compute_rc_cost_pos curve_params current_pool (-resource_count) rc_regen).map (fun c => -c)
    else
      .ok 0
  else
    compute_rc_cost_pos curve_params current_pool resource_count rc_regen

/-- The positive branch of the full function is the positive-branch core. -/
theorem compute_rc_cost_of_resource_pos_eq (cp : CurveParams) (pool u regen : Int)
    (hu : 0 < u) :
    compute_rc_cost_of_resource cp pool u regen = compute_rc_cost_pos cp pool u regen := by
  unfold compute_rc_cost_of_resource
  rw [if_neg (by omega)]

/-- Source recursive equation of the negative branch: for `u < 0` the result
is the negation of the cost at `-u`. -/
theorem compute_rc_cost_of_resource_neg (cp : CurveParams) (pool u regen : Int)
    (hu : u < 0) :
    compute_rc_cost_of_resource cp pool u regen =
      (compute_rc_cost_of_resource cp pool (-u) regen).map (fun c => -c) := by
  unfold compute_rc_cost_of_resource
  rw [if_pos (by omega), if_pos hu, if_neg (by omega)]

/-- Decay parameters `{decay_per_time_unit, decay_per_time_unit_denom_shift}`
together with the unused-by-the-code companions carried in the
configuration dictionaries. -/
structure DecayParams where
  decay_per_time_unit : Int
  decay_per_time_unit_denom_shift : Nat

/-- Non-negative-pool branch of `rd_compute_pool_decay`: multiply the pool
by `decay_per_time_unit * dt`, arithmetic-shift right, clamp to the pool. -/
def rd_compute_pool_decay_pos (decay_params : DecayParams) (current_pool dt : Int) : Int :=
  let decay_amount := decay_params.decay_per_time_unit * dt
  let decay_amount := decay_amount * current_pool
  let decay_amount := Int.fdiv decay_amount ((2 : Int) ^ decay_params.decay_per_time_unit_denom_shift)
  let result := decay_amount
  min result current_pool

/-- Python `rd_compute_pool_decay`.  The source's negative branch returns
`-rd_compute_pool_decay(params, -current_pool, dt)`; since `-current_pool > 0`
there, the recursive call lands in the non-negative branch, so it is written
as a direct call to `rd_compute_pool_decay_pos` (the recursive equation is
recovered as `rd_compute_pool_decay_neg` below). -/
def rd_compute_pool_decay (decay_params : DecayParams) (current_pool dt : Int) : Int :=
  if current_pool < 0 then
    -(rd_compute_pool_decay_pos decay_params (-current_pool) dt)
  else
    rd_compute_pool_decay_pos decay_params current_pool dt

/-- Source recursive equation of the negative branch of the decay model. -/
theorem rd_compute_pool_decay_neg (dp : DecayParams) (pool dt : Int) (h : pool < 0) :
    rd_compute_pool_decay dp pool dt = -(rd_compute_pool_decay dp (-pool) dt) := by
  unfold rd_compute_pool_decay
  rw [if_pos h, if_neg (by omega)]

/-- Per-resource dynamics parameters (`resource_dynamics_params`); the
`pool_eq`, `max_pool_size` and `min_decay` entries are present in the
configuration but never read by the code. -/
structure ResourceDynamicsParams where
  resource_unit : Int
  budget_per_time_unit : Int
  pool_eq : Int
  max_pool_size : Int
  decay_params : DecayParams
  min_decay : Int

/-- Per-resource parameter record (`resource_params[resource_name]`). -/
structure ResourceParams where
  resource_dynamics_params : ResourceDynamicsParams
  price_curve_params : CurveParams

/-- Python `RCModel.__init__` state: parameter table, pool snapshot,
regeneration rate, plus the `size_info`/`exec_info` configuration the
embedded `ResourceCounter` is built from. -/
structure RCModel where
  resource_params : ResourceMap ResourceParams
  size_info : SizeInfo
  exec_info : ExecInfo
  resource_pool : ResourceMap Int
  rc_regen : Int

/-- The `count_resources` member built by `RCModel.__init__`. -/
def RCModel.count_resources (m : RCModel) : ResourceCounter :=
  { size_info := m.size_info, exec_info := m.exec_info }

/-- Per-resource entries of the dictionary returned by
`RCModel.get_transaction_rc_cost`.  The Python code mutates the usage
dictionary in place (`usage[...][r] *= resource_unit`) before pricing, so
the usage that is returned is the scaled one. -/
structure TxRcCost where
  usage : UsageVector
  cost : ResourceMap Int
deriving DecidableEq

/-- Python `RCModel.get_transaction_rc_cost`: run the counter, then for each
resource in `resource_names` order scale the usage entry in place by
`resource_unit`, price it against the resource's pool with the model's
regeneration rate, and return the (scaled) usage together with the
per-resource cost map.  Any counter failure or `ZeroDivisionError`
aborts the computation. -/
def RCModel.get_transaction_rc_cost (m : RCModel) (tx : Tx) (tx_size : Int) :
    Except String TxRcCost := do
  let usage ← m.count_resources.call tx tx_size
  let u_history := usage.resource_history_bytes
    * m.resource_params.resource_history_bytes.resource_dynamics_params.resource_unit
  let c_history ← compute_rc_cost_of_resource
    m.resource_params.resource_history_bytes.price_curve_params
    m.resource_pool.resource_history_bytes u_history m.rc_regen
  let u_new_accounts := usage.resource_new_accounts
    * m.resource_params.resource_new_accounts.resource_dynamics_params.resource_unit
  let c_new_accounts ← compute_rc_cost_of_resource
    m.resource_params.resource_new_accounts.price_curve_params
    m.resource_pool.resource_new_accounts u_new_accounts m.rc_regen
  let u_market := usage.resource_market_bytes
    * m.resource_params.resource_market_bytes.resource_dynamics_params.resource_unit
  let c_market ← compute_rc_cost_of_resource
    m.resource_params.resource_market_bytes.price_curve_params
    m.resource_pool.resource_market_bytes u_market m.rc_regen
  let u_state := usage.resource_state_bytes
    * m.resource_params.resource_state_bytes.resource_dynamics_params.resource_unit
  let c_state ← compute_rc_cost_of_resource
    m.resource_params.resource_state_bytes.price_curve_params
    m.resource_pool.resource_state_bytes u_state m.rc_regen
  let u_execution := usage.resource_execution_time
    * m.resource_params.resource_execution_time.resource_dynamics_params.resource_unit
  let c_execution ← compute_rc_cost_of_resource
    m.resource_params.resource_execution_time.price_curve_params
    m.resource_pool.resource_execution_time u_execution m.rc_regen
  .ok
    { usage :=
        { resource_history_bytes := u_history
          resource_new_accounts := u_new_accounts
          resource_market_bytes := u_market
          resource_state_bytes := u_state
          resource_execution_time := u_execution }
      cost :=
        { resource_history_bytes := c_history
          resource_new_accounts := c_new_accounts
          resource_market_bytes := c_market
          resource_state_bytes := c_state
          resource_execution_time := c_execution } }

/-- One per-resource row of the `block_info` table built by
`RCModel.apply_rc_pool_dynamics` (the always-empty `adjustment` column is
omitted). -/
structure BlockInfoEntry where
  dt : Int
  decay : Int
  budget : Int
  usage : Int
  pool : Int
  new_pool : Int
deriving DecidableEq

/-- Loop body of `RCModel.apply_rc_pool_dynamics` for one resource:
`dt = 1`, `budget = budget_per_time_unit * dt`, `usage = count * resource_unit`,
`decay = rd_compute_pool_decay(decay_params, pool - usage, dt)`,
`new_pool = pool - decay + budget - usage`. -/
def rc_pool_dynamics_step (params : ResourceDynamicsParams) (pool : Int) (count : Int) :
    BlockInfoEntry :=
  let dt : Int := 1
  let budget := params.budget_per_time_unit * dt
  let usage := count * params.resource_unit
  let decay := rd_compute_pool_decay params.decay_params (pool - usage) dt
  { dt := dt
    decay := decay
    budget := budget
    usage := usage
    pool := pool
    new_pool := pool - decay + budget - usage }

/-- Python `RCModel.apply_rc_pool_dynamics(count)`: apply the per-resource
step to every resource in `resource_names` order. -/
def RCModel.apply_rc_pool_dynamics (m : RCModel) (count : ResourceMap Int) :
    ResourceMap BlockInfoEntry :=
  { resource_history_bytes := rc_pool_dynamics_step
      m.resource_params.resource_history_bytes.resource_dynamics_params
      m.resource_pool.resource_history_bytes count.resource_history_bytes
    resource_new_accounts := rc_pool_dynamics_step
      m.resource_params.resource_new_accounts.resource_dynamics_params
      m.resource_pool.resource_new_accounts count.resource_new_accounts
    resource_market_bytes := rc_pool_dynamics_step
      m.resource_params.resource_market_bytes.resource_dynamics_params
      m.resource_pool.resource_market_bytes count.resource_market_bytes
    resource_state_bytes := rc_pool_dynamics_step
      m.resource_params.resource_state_bytes.resource_dynamics_params
      m.resource_pool.resource_state_bytes count.resource_state_bytes
    resource_execution_time := rc_pool_dynamics_step
      m.resource_params.resource_execution_time.resource_dynamics_params
      m.resource_pool.resource_execution_time count.resource_execution_time }

/-- Constant `STEEM_RC_REGEN_TIME = 60*60*24*5` from the source. -/
def STEEM_RC_REGEN_TIME : Int := 60 * 60 * 24 * 5

/-- Constant `STEEM_BLOCK_INTERVAL = 3` from the source. -/
def STEEM_BLOCK_INTERVAL : Int := 3

/-- Constant `total_vesting_shares` from the source. -/
def total_vesting_shares : Int := 397114288290855167

/-- The sample `size_info` table
(`resource_params["size_info"]["resource_state_bytes"]`). -/
def size_info : SizeInfo :=
  { authority_base_size := 40000
    authority_account_member_size := 180000
    authority_key_member_size := 350000
    account_object_base_size := 4800000
    account_authority_object_base_size := 400000
    account_recovery_request_object_base_size := 320000
    comment_object_base_size := 2010000
    comment_object_permlink_char_size := 10000
    comment_object_parent_permlink_char_size := 20000
    comment_object_beneficiaries_member_size := 180000
    comment_vote_object_base_size := 470000
    convert_request_object_base_size := 480000
    decline_voting_rights_request_object_base_size := 280000
    escrow_object_base_size := 1190000
    limit_order_object_base_size := 147440
    savings_withdraw_object_byte_size := 14656
    transaction_object_base_size := 6090
    transaction_object_byte_size := 174
    vesting_delegation_object_base_size := 600000
    vesting_delegation_expiration_object_base_size := 440000
    withdraw_vesting_route_object_base_size := 430000
    witness_object_base_size := 2660000
    witness_object_url_char_size := 10000
    witness_vote_object_base_size := 400000
    STATE_BYTES_SCALE := 10000 }

/-- The sample `exec_info` table
(`resource_params["size_info"]["resource_execution_time"]`).  The `smt_*`
and `claim_reward_balance2` entries are absent from the sample table
(reading them in Python would raise `AttributeError`); they are set to 0
here and are never exercised by any theorem below. -/
def exec_info : ExecInfo :=
  { account_create_operation_exec_time := 57700
    account_create_with_delegation_operation_exec_time := 57700
    account_update_operation_exec_time := 14000
    account_witness_proxy_operation_exec_time := 117000
    account_witness_vote_operation_exec_time := 23000
    cancel_transfer_from_savings_operation_exec_time := 11500
    change_recovery_account_operation_exec_time := 12000
    claim_account_operation_exec_time := 10000
    claim_reward_balance_operation_exec_time := 50300
    claim_reward_balance2_operation_exec_time := 0
    comment_operation_exec_time := 114100
    comment_options_operation_exec_time := 13200
    convert_operation_exec_time := 15700
    create_claimed_account_operation_exec_time := 57700
    custom_operation_exec_time := 228000
    custom_json_operation_exec_time := 228000
    custom_binary_operation_exec_time := 228000
    decline_voting_rights_operation_exec_time := 5300
    delegate_vesting_shares_operation_exec_time := 19900
    delete_comment_operation_exec_time := 51100
    escrow_approve_operation_exec_time := 9900
    escrow_dispute_operation_exec_time := 11500
    escrow_release_operation_exec_time := 17200
    escrow_transfer_operation_exec_time := 19100
    feed_publish_operation_exec_time := 6200
    limit_order_cancel_operation_exec_time := 9600
    limit_order_create_operation_exec_time := 31700
    limit_order_create2_operation_exec_time := 31700
    request_account_recovery_operation_exec_time := 54400
    set_withdraw_vesting_route_operation_exec_time := 17900
    smt_setup_operation_exec_time := 0
    smt_cap_reveal_operation_exec_time := 0
    smt_refund_operation_exec_time := 0
    smt_setup_emissions_operation_exec_time := 0
    smt_set_setup_parameters_operation_exec_time := 0
    smt_set_runtime_parameters_operation_exec_time := 0
    smt_create_operation_exec_time := 0
    transfer_from_savings_operation_exec_time := 17500
    transfer_operation_exec_time := 9600
    transfer_to_savings_operation_exec_time := 6400
    transfer_to_vesting_operation_exec_time := 44400
    vote_operation_exec_time := 26500
    withdraw_vesting_operation_exec_time := 10400
    witness_set_properties_operation_exec_time := 9500
    witness_update_operation_exec_time := 9500 }

/-- Sample per-resource parameters (`resource_params["resource_params"]`). -/
def resource_params_map : ResourceMap ResourceParams :=
  { resource_history_bytes :=
      { resource_dynamics_params :=
          { resource_unit := 1
            budget_per_time_unit := 347222
            pool_eq := 216404314004
            max_pool_size := 432808628007
            decay_params :=
              { decay_per_time_unit := 3613026481
                decay_per_time_unit_denom_shift := 51 }
            min_decay := 0 }
        price_curve_params :=
          { coeff_a := 12981647055416481792
            coeff_b := 1690658703
            shift := 49 } }
    resource_new_accounts :=
      { resource_dynamics_params :=
          { resource_unit := 10000
            budget_per_time_unit := 797
            pool_eq := 157691079
            max_pool_size := 157691079
            decay_params :=
              { decay_per_time_unit := 347321
                decay_per_time_unit_denom_shift := 36 }
            min_decay := 0 }
        price_curve_params :=
          { coeff_a := 16484671763857882971
            coeff_b := 1231961
            shift := 51 } }
    resource_market_bytes :=
      { resource_dynamics_params :=
          { resource_unit := 10
            budget_per_time_unit := 578704
            pool_eq := 16030041350
            max_pool_size := 32060082699
            decay_params :=
              { decay_per_time_unit := 2540365427
                decay_per_time_unit_denom_shift := 46 }
            min_decay := 0 }
        price_curve_params :=
          { coeff_a := 9231393461629499392
            coeff_b := 125234698
            shift := 53 } }
    resource_state_bytes :=
      { resource_dynamics_params :=
          { resource_unit := 1
            budget_per_time_unit := 231481481
            pool_eq := 144269542669147
            max_pool_size := 288539085338293
            decay_params :=
              { decay_per_time_unit := 3613026481
                decay_per_time_unit_denom_shift := 51 }
            min_decay := 0 }
        price_curve_params :=
          { coeff_a := 12981647055416481792
            coeff_b := 1127105802103
            shift := 49 } }
    resource_execution_time :=
      { resource_dynamics_params :=
          { resource_unit := 1
            budget_per_time_unit := 82191781
            pool_eq := 51225569123068
            max_pool_size := 102451138246135
            decay_params :=
              { decay_per_time_unit := 3613026481
                decay_per_time_unit_denom_shift := 51 }
            min_decay := 0 }
        price_curve_params :=
          { coeff_a := 12981647055416481792
            coeff_b := 400199758774
            shift := 49 } } }

/-- Sample pool snapshot (`resource_pool` in the source). -/
def resource_pool : ResourceMap Int :=
  { resource_history_bytes := 199290410749
    resource_new_accounts := 24573481
    resource_market_bytes := 15970580402
    resource_state_bytes := 132161364601521
    resource_execution_time := 47263115029450 }

/-- The module-level `rc_regen` computed in the source:
`total_vesting_shares // (STEEM_RC_REGEN_TIME // STEEM_BLOCK_INTERVAL)`. -/
def rc_regen : Int :=
  Int.fdiv total_vesting_shares (Int.fdiv STEEM_RC_REGEN_TIME STEEM_BLOCK_INTERVAL)

/-- The module-level `count_resources = ResourceCounter(resource_params)`. -/
def count_resources : ResourceCounter :=
  { size_info := size_info, exec_info := exec_info }

/-- The module-level `model = RCModel(...)` built over the sample tables. -/
def model : RCModel :=
  { resource_params := resource_params_map
    size_info := size_info
    exec_info := exec_info
    resource_pool := resource_pool
    rc_regen := rc_regen }

/-- The `"vote"` example transaction: its operation list is exactly one
vote operation (`example_transactions["vote"]`, serialized size 133). -/
def vote_tx : Tx := { operations := [Op.vote_operation] }

/-- Serialized size of the `"vote"` example transaction. -/
def vote_tx_size : Int := 133

/-- The `"transfer"` example transaction: one transfer operation,
serialized size 282. -/
def transfer_tx : Tx := { operations := [Op.transfer_operation] }

/-- Serialized size of the `"transfer"` example transaction. -/
def transfer_tx_size : Int := 282

/-- Euclidean division of a non-negative integer is antitone in the
(positive) divisor. -/
theorem ediv_antitone_in_divisor {a b c : Int} (ha : 0 ≤ a) (hb : 0 < b) (hbc : b ≤ c) :
    a / c ≤ a / b := by
  have hc : 0 < c := lt_of_lt_of_le hb hbc
  rw [Int.le_ediv_iff_mul_le hb]
  calc a / c * b ≤ a / c * c := by
        exact mul_le_mul_of_nonneg_left hbc (Int.ediv_nonneg ha (le_of_lt hc))
    _ ≤ a := Int.ediv_mul_le a (ne_of_gt hc)

/-- Bounds of the non-negative-pool branch of the decay model: with a
non-negative decay rate, a non-negative `dt` and a non-negative pool the
decayed amount lies between 0 and the pool. -/
theorem rd_compute_pool_decay_pos_bounds (dp : DecayParams) (pool dt : Int)
    (hr : 0 ≤ dp.decay_per_time_unit) (hdt : 0 ≤ dt) (hp : 0 ≤ pool) :
    0 ≤ rd_compute_pool_decay_pos dp pool dt ∧ rd_compute_pool_decay_pos dp pool dt ≤ pool := by
  unfold rd_compute_pool_decay_pos
  constructor
  · exact le_min (Int.fdiv_nonneg (mul_nonneg (mul_nonneg hr hdt) hp) (by positivity)) hp
  · exact min_le_right _ _

/-- Dispatching any list that contains an unregistered tag fails, from any
starting accumulator state. -/
theorem visitList_unknown_mem (si : SizeInfo) (ei : ExecInfo) (tag : String) :
    ∀ (ops : List Op) (s : CountOperationVisitor), Op.unknown tag ∈ ops →
      ∃ e, visitList si ei s ops = .error e := by
  intro ops
  induction ops with
  | nil => intro s h; simp at h
  | cons op rest ih =>
    intro s h
    rcases List.mem_cons.mp h with h1 | h2
    · subst h1
      exact ⟨"AttributeError: visit_" ++ tag, by simp [visitList, visit, bind, Except.bind]⟩
    · cases hv : visit si ei s op with
      | error e => exact ⟨e, by simp [visitList, bind, Except.bind, hv]⟩
      | ok s' =>
        obtain ⟨e, he⟩ := ih s' h2
        exact ⟨e, by simp [visitList, bind, Except.bind, hv, he]⟩

/-- A failing resource count makes the whole cost query fail with the same
error. -/
theorem get_transaction_rc_cost_error_of_call_error (m : RCModel) (tx : Tx) (tx_size : Int)
    (e : String) (h : m.count_resources.call tx tx_size = .error e) :
    m.get_transaction_rc_cost tx tx_size = .error e := by
  unfold RCModel.get_transaction_rc_cost
  rw [h]
  rfl

/-- Every explicitly-ignored variant (the `# Virtual ops` block and the
other `pass` handlers) leaves the accumulator unchanged and succeeds. -/
theorem visit_explicit_noop (si : SizeInfo) (ei : ExecInfo) (s : CountOperationVisitor)
    (op : Op)
    (h : op ∈ [Op.recover_account_operation, Op.pow_operation, Op.pow2_operation,
      Op.report_over_production_operation, Op.reset_account_operation,
      Op.set_reset_account_operation, Op.fill_convert_request_operation,
      Op.author_reward_operation, Op.curation_reward_operation,
      Op.comment_reward_operation, Op.liquidity_reward_operation,
      Op.interest_operation, Op.fill_vesting_withdraw_operation,
      Op.fill_order_operation, Op.shutdown_witness_operation,
      Op.fill_transfer_from_savings_operation, Op.hardfork_operation,
      Op.comment_payout_update_operation, Op.return_vesting_delegation_operation,
      Op.comment_benefactor_reward_operation, Op.producer_reward_operation,
      Op.clear_null_account_balance_operation, Op.allowed_vote_assets]) :
    visit si ei s op = .ok s := by
  fin_cases h <;> rfl

/-- C1: for every curve parameter set, pool, regeneration rate and usage
`u > 0` (with the denominator non-zero, since Python raises
`ZeroDivisionError` otherwise), the pricing function returns exactly
`floor(((arith_shift_right(regen * coeff_a, shift) + 1) * u) / (coeff_b + max(pool, 0))) + 1`,
where the arithmetic right shift of an unbounded integer is floor division
by `2 ^ shift`, all in arbitrary-precision integer arithmetic. -/
theorem compute_rc_cost_closed_form (cp : CurveParams) (pool u regen : Int)
    (hu : 0 < u) (hd : cp.coeff_b + max pool 0 ≠ 0) :
    compute_rc_cost_of_resource cp pool u regen =
      .ok (Int.fdiv ((Int.fdiv (regen * cp.coeff_a) ((2 : Int) ^ cp.shift) + 1) * u)
            (cp.coeff_b + max pool 0) + 1) := by
  rw [compute_rc_cost_of_resource_pos_eq cp pool u regen hu]
  unfold compute_rc_cost_pos
  rw [if_neg hd]

/-- Witness for C1 at the concrete input `coeff_a = 1, coeff_b = 1,
shift = 0, pool = 0, u = 1, regen = 0`: the cost evaluates to 2. -/
theorem compute_rc_cost_closed_form_witness :
    compute_rc_cost_of_resource ⟨1, 1, 0⟩ 0 1 0 = .ok 2 := by
  rw [compute_rc_cost_closed_form ⟨1, 1, 0⟩ 0 1 0 (by decide) (by decide)]
  rfl

/-- C2 counterexample: on the sample configuration and the single-vote
example transaction the accountant accumulates `execution_time_count = 26500`
(the configured vote execution time), but the usage vector emitted by
`ResourceCounter.__call__` has `resource_execution_time = 0`: the line
copying the accumulator into the result is commented out in the source. -/
theorem execution_time_not_emitted_cex :
    (visitList size_info exec_info CountOperationVisitor.init vote_tx.operations).map
        (fun v => v.execution_time_count) = .ok 26500 ∧
    (count_resources.call vote_tx 133).map
        (fun u => u.resource_execution_time) = .ok 0 ∧
    (0 : Int) ≠ 26500 :=
  ⟨rfl, rfl, by decide⟩

/-- C2 as amended: the `execution_time` component of every usage vector the
aggregator emits is 0 — the accountant's accumulated count is not copied
into the result. -/
theorem execution_time_component_zero (rc : ResourceCounter) (tx : Tx) (tx_size : Int)
    (u : UsageVector) (h : rc.call tx tx_size = .ok u) :
    u.resource_execution_time = 0 := by
  unfold ResourceCounter.call at h
  split at h
  · exact absurd h (by simp)
  · cases hv : visitList rc.size_info rc.exec_info CountOperationVisitor.init tx.operations with
    | error e => rw [hv] at h; exact absurd h (by simp [bind, Except.bind])
    | ok v =>
      rw [hv] at h
      simp only [bind, Except.bind, Except.ok.injEq] at h
      rw [← h]

/-- Witness for the amended C2 at the sample counter and the single-vote
example transaction. -/
theorem execution_time_component_zero_witness :
    (⟨133, 0, 0, 499232, 0⟩ : UsageVector).resource_execution_time = 0 :=
  execution_time_component_zero count_resources vote_tx 133 ⟨133, 0, 0, 499232, 0⟩ rfl

/-- C3 counterexample: with `decay_per_time_unit = 1`, `denom_shift = 0`,
`pool = -1`, `dt = 1` the decay function returns `-1`, violating the
claimed lower bound `0 ≤ result`. -/
theorem rd_compute_pool_decay_negative_cex :
    rd_compute_pool_decay ⟨1, 0⟩ (-1) 1 = -1 ∧ ¬(0 ≤ (-1 : Int)) :=
  ⟨rfl, by decide⟩

/-- C3 as amended: with a non-negative decay rate and non-negative `dt`
(both true of every configured parameter set and of the code's fixed
`dt = 1`), the decay result `r` satisfies `|r| ≤ |pool|` for every pool,
and additionally `0 ≤ r ≤ pool` whenever `pool ≥ 0`; for a negative pool
the result is the negated decay of `-pool`, lying in `[-|pool|, 0]`. -/
theorem rd_compute_pool_decay_bounded (dp : DecayParams) (pool dt : Int)
    (hr : 0 ≤ dp.decay_per_time_unit) (hdt : 0 ≤ dt) :
    |rd_compute_pool_decay dp pool dt| ≤ |pool| ∧
    (0 ≤ pool → 0 ≤ rd_compute_pool_decay dp pool dt ∧
      rd_compute_pool_decay dp pool dt ≤ pool) := by
  rcases le_or_lt 0 pool with hp | hp
  · have hb := rd_compute_pool_decay_pos_bounds dp pool dt hr hdt hp
    have heq : rd_compute_pool_decay dp pool dt = rd_compute_pool_decay_pos dp pool dt := by
      unfold rd_compute_pool_decay
      rw [if_neg (by omega)]
    rw [heq, abs_of_nonneg hb.1, abs_of_nonneg hp]
    exact ⟨hb.2, fun _ => hb⟩
  · have hb := rd_compute_pool_decay_pos_bounds dp (-pool) dt hr hdt (by omega)
    have heq : rd_compute_pool_decay dp pool dt = -(rd_compute_pool_decay_pos dp (-pool) dt) := by
      unfold rd_compute_pool_decay
      rw [if_pos hp]
    rw [heq, abs_neg, abs_of_nonneg hb.1, abs_of_neg hp]
    exact ⟨hb.2, fun hc => absurd hc (by omega)⟩

/-- Witness for the amended C3 at `decay_per_time_unit = 1`, shift 0,
`pool = 5`, `dt = 1`. -/
theorem rd_compute_pool_decay_bounded_witness :
    |rd_compute_pool_decay ⟨1, 0⟩ 5 1| ≤ |(5 : Int)| ∧
    (0 ≤ (5 : Int) → 0 ≤ rd_compute_pool_decay ⟨1, 0⟩ 5 1 ∧
      rd_compute_pool_decay ⟨1, 0⟩ 5 1 ≤ 5) :=
  rd_compute_pool_decay_bounded ⟨1, 0⟩ 5 1 (by decide) (by decide)

/-- C4 counterexample: with `coeff_a = 1, coeff_b = 1, shift = 0`,
`u = 10` and regeneration rate `-2`, raising the pool from 0 to 1 raises
the cost from `-9` to `-4`, so the pricing function is not non-increasing
in the pool for every curve/regeneration pair. -/
theorem cost_not_antitone_cex :
    compute_rc_cost_of_resource ⟨1, 1, 0⟩ 0 10 (-2) = .ok (-9) ∧
    compute_rc_cost_of_resource ⟨1, 1, 0⟩ 1 10 (-2) = .ok (-4) ∧
    (0 : Int) ≤ 1 ∧ ¬((-4 : Int) ≤ -9) :=
  ⟨rfl, rfl, by decide, by decide⟩

/-- C4 as amended: for a non-negative `coeff_a`, a non-negative
regeneration rate and a positive `coeff_b` (all true of every configured
curve and of the chain regeneration rate), the cost at fixed positive
usage is non-increasing in the pool. -/
theorem cost_antitone_in_pool (cp : CurveParams) (p1 p2 u regen : Int)
    (ha : 0 ≤ cp.coeff_a) (hr : 0 ≤ regen) (hb : 0 < cp.coeff_b)
    (hu : 0 < u) (hp : p1 ≤ p2) :
    ∃ c1 c2, compute_rc_cost_of_resource cp p1 u regen = .ok c1 ∧
      compute_rc_cost_of_resource cp p2 u regen = .ok c2 ∧ c2 ≤ c1 := by
  have hm1 : (0 : Int) ≤ max p1 0 := le_max_right _ _
  have hm2 : (0 : Int) ≤ max p2 0 := le_max_right _ _
  have hd1 : (0 : Int) < cp.coeff_b + max p1 0 := by linarith
  have hd2 : (0 : Int) < cp.coeff_b + max p2 0 := by linarith
  have hd12 : cp.coeff_b + max p1 0 ≤ cp.coeff_b + max p2 0 :=
    add_le_add_left (max_le_max hp (le_refl 0)) _
  have hnum : (0 : Int) ≤ (Int.fdiv (regen * cp.coeff_a) ((2 : Int) ^ cp.shift) + 1) * u := by
    have h1 : (0 : Int) ≤ Int.fdiv (regen * cp.coeff_a) ((2 : Int) ^ cp.shift) :=
      Int.fdiv_nonneg (mul_nonneg hr ha) (by positivity)
    have h2 : (0 : Int) ≤ u := le_of_lt hu
    nlinarith
  refine ⟨Int.fdiv ((Int.fdiv (regen * cp.coeff_a) ((2 : Int) ^ cp.shift) + 1) * u)
      (cp.coeff_b + max p1 0) + 1,
    Int.fdiv ((Int.fdiv (regen * cp.coeff_a) ((2 : Int) ^ cp.shift) + 1) * u)
      (cp.coeff_b + max p2 0) + 1, ?_, ?_, ?_⟩
  · rw [compute_rc_cost_of_resource_pos_eq cp p1 u regen hu]
    simp only [compute_rc_cost_pos]
    rw [if_neg (ne_of_gt hd1)]
  · rw [compute_rc_cost_of_resource_pos_eq cp p2 u regen hu]
    simp only [compute_rc_cost_pos]
    rw [if_neg (ne_of_gt hd2)]
  · have hmono :
        Int.fdiv ((Int.fdiv (regen * cp.coeff_a) ((2 : Int) ^ cp.shift) + 1) * u)
            (cp.coeff_b + max p2 0) ≤
          Int.fdiv ((Int.fdiv (regen * cp.coeff_a) ((2 : Int) ^ cp.shift) + 1) * u)
            (cp.coeff_b + max p1 0) := by
      rw [Int.fdiv_eq_ediv _ (le_of_lt hd2), Int.fdiv_eq_ediv _ (le_of_lt hd1)]
      exact ediv_antitone_in_divisor hnum hd1 hd12
    linarith

/-- Witness for the amended C4 at `coeff_a = 0, coeff_b = 1, shift = 0`,
pools 0 and 1, `u = 1`, regeneration rate 0. -/
theorem cost_antitone_in_pool_witness :
    ∃ c1 c2, compute_rc_cost_of_resource ⟨0, 1, 0⟩ 0 1 0 = .ok c1 ∧
      compute_rc_cost_of_resource ⟨0, 1, 0⟩ 1 1 0 = .ok c2 ∧ c2 ≤ c1 :=
  cost_antitone_in_pool ⟨0, 1, 0⟩ 0 1 1 0 (by decide) (by decide) (by decide) (by decide)
    (by decide)

/-- C5: the pricing function is sign-antisymmetric —
`cost(curve, pool, -u, regen)` is the negation of `cost(curve, pool, u, regen)`
for every `u > 0` (including propagation of the divide-by-zero failure),
and the cost at usage 0 is 0. -/
theorem cost_sign_antisymmetric (cp : CurveParams) (pool regen u : Int) (hu : 0 < u) :
    compute_rc_cost_of_resource cp pool (-u) regen =
      (compute_rc_cost_of_resource cp pool u regen).map (fun c => -c) ∧
    compute_rc_cost_of_resource cp pool 0 regen = .ok 0 := by
  constructor
  · rw [compute_rc_cost_of_resource_neg cp pool (-u) regen (by omega), neg_neg]
  · norm_num [compute_rc_cost_of_resource]

/-- Witness for C5 at `coeff_a = 1, coeff_b = 1, shift = 0`, pool 0,
regeneration rate 0, `u = 1`. -/
theorem cost_sign_antisymmetric_witness :
    compute_rc_cost_of_resource ⟨1, 1, 0⟩ 0 (-1) 0 =
      (compute_rc_cost_of_resource ⟨1, 1, 0⟩ 0 1 0).map (fun c => -c) ∧
    compute_rc_cost_of_resource ⟨1, 1, 0⟩ 0 0 0 = .ok 0 :=
  cost_sign_antisymmetric ⟨1, 1, 0⟩ 0 0 1 (by decide)

/-- C6: for every configuration, the transaction whose operation list is
exactly one vote operation, with serialized length 133, yields
`history_bytes = 133`, `market_bytes = 0`, `new_accounts = 0` and
`state_bytes = transaction_object_base_size + transaction_object_byte_size * 133 + comment_vote_object_base_size`
(and an execution-time component of 0). -/
theorem single_vote_usage_vector (rc : ResourceCounter) :
    rc.call vote_tx 133 = .ok
      { resource_history_bytes := 133
        resource_new_accounts := 0
        resource_market_bytes := 0
        resource_state_bytes := rc.size_info.transaction_object_base_size
          + rc.size_info.transaction_object_byte_size * 133
          + rc.size_info.comment_vote_object_base_size
        resource_execution_time := 0 } := by
  norm_num [ResourceCounter.call, vote_tx, visitList, visit, CountOperationVisitor.init,
    bind, Except.bind]

/-- C7: a transaction containing an operation whose tag has no registered
`visit_` handler (and which is therefore not one of the explicitly-ignored
no-op variants, all of which have handlers) makes the whole cost
computation fail instead of succeeding; pool state is untouched, as the
cost query is a pure function of the model that never produces an updated
pool — the only pool-writing entry point is `apply_rc_pool_dynamics`. -/
theorem unknown_operation_rejected (m : RCModel) (tx : Tx) (tx_size : Int) (tag : String)
    (h : Op.unknown tag ∈ tx.operations) :
    (m.get_transaction_rc_cost tx tx_size).isOk = false := by
  by_cases hneg : tx_size < 0
  · have hcall : m.count_resources.call tx tx_size =
        .error "NameError: name Serializer is not defined" := by
      unfold ResourceCounter.call
      rw [if_pos hneg]
    rw [get_transaction_rc_cost_error_of_call_error m tx tx_size _ hcall]
    rfl
  · obtain ⟨e, he⟩ :=
      visitList_unknown_mem m.size_info m.exec_info tag tx.operations CountOperationVisitor.init h
    have hcall : m.count_resources.call tx tx_size = .error e := by
      unfold ResourceCounter.call
      rw [if_neg hneg]
      simp [RCModel.count_resources, he, bind, Except.bind]
    rw [get_transaction_rc_cost_error_of_call_error m tx tx_size e hcall]
    rfl

/-- Witness for C7: the sample model rejects a transaction holding an
operation with the unregistered tag `"foo"`. -/
theorem unknown_operation_rejected_witness :
    (model.get_transaction_rc_cost { operations := [Op.unknown "foo"] } 133).isOk = false :=
  unknown_operation_rejected model { operations := [Op.unknown "foo"] } 133 "foo" (by simp)

/-- Spec-side description of the scaling step of `get_transaction_rc_cost`,
written from the spec's words: each component of the usage vector
multiplied by that resource's configured `resource_unit`. -/
def scale_usage_by_resource_unit (params : ResourceMap ResourceParams) (u : UsageVector) :
    UsageVector :=
  { resource_history_bytes := u.resource_history_bytes
      * params.resource_history_bytes.resource_dynamics_params.resource_unit
    resource_new_accounts := u.resource_new_accounts
      * params.resource_new_accounts.resource_dynamics_params.resource_unit
    resource_market_bytes := u.resource_market_bytes
      * params.resource_market_bytes.resource_dynamics_params.resource_unit
    resource_state_bytes := u.resource_state_bytes
      * params.resource_state_bytes.resource_dynamics_params.resource_unit
    resource_execution_time := u.resource_execution_time
      * params.resource_execution_time.resource_dynamics_params.resource_unit }

/-- C8 counterexample: for the sample model and the transfer example
transaction (serialized size 282), the usage map returned by
`get_transaction_rc_cost` carries `resource_market_bytes = 2820` — the
value already scaled by the market `resource_unit = 10` — while the raw
aggregator vector carries 282, so the returned usage is not the raw one. -/
theorem usage_not_raw_cex :
    (model.get_transaction_rc_cost transfer_tx 282).map
        (fun r => r.usage.resource_market_bytes) = .ok 2820 ∧
    (count_resources.call transfer_tx 282).map
        (fun u => u.resource_market_bytes) = .ok 282 ∧
    (2820 : Int) ≠ 282 :=
  ⟨rfl, rfl, by decide⟩

/-- C8 as amended: whenever `get_transaction_rc_cost` succeeds, the usage
map it returns equals the aggregator's raw vector with each component
multiplied by its configured `resource_unit` (the Python code scales the
usage dictionary in place before pricing and returns the mutated
dictionary). -/
theorem usage_returned_is_scaled (m : RCModel) (tx : Tx) (tx_size : Int) (r : TxRcCost)
    (h : m.get_transaction_rc_cost tx tx_size = .ok r) :
    (m.count_resources.call tx tx_size).map
      (fun u => scale_usage_by_resource_unit m.resource_params u) = .ok r.usage := by
  unfold RCModel.get_transaction_rc_cost at h
  cases hcall : m.count_resources.call tx tx_size with
  | error e =>
    rw [hcall] at h
    simp only [bind, Except.bind] at h
    exact Except.noConfusion h
  | ok u =>
    rw [hcall] at h
    simp only [bind, Except.bind] at h
    repeat' split at h
    any_goals exact Except.noConfusion h
    simp only [Except.map]
    injection h with h'
    rw [← h']
    rfl

/-- C9 counterexample: with the sample `resource_new_accounts` dynamics
parameters, a non-negative pool of 0 and a non-negative usage count of 1,
the block-dynamics step computes `new_pool = 0 - 0 + 797 - 10000 = -9203 < 0`,
so non-negativity of pools is not an invariant of the step. -/
theorem new_pool_negative_cex :
    (rc_pool_dynamics_step resource_params_map.resource_new_accounts.resource_dynamics_params
        0 1).new_pool = -9203 ∧
    (0 : Int) ≤ 0 ∧ (0 : Int) ≤ 1 ∧ ¬(0 ≤ (-9203 : Int)) :=
  ⟨rfl, by decide, by decide, by decide⟩

/-- C9 as amended: whenever the scaled usage does not exceed the current
pool (and with a non-negative budget and decay rate, true of every
configured resource), the block-dynamics step keeps the pool
non-negative. -/
theorem new_pool_nonneg (params : ResourceDynamicsParams) (pool count : Int)
    (hb : 0 ≤ params.budget_per_time_unit)
    (hd : 0 ≤ params.decay_params.decay_per_time_unit)
    (hu : count * params.resource_unit ≤ pool) :
    0 ≤ (rc_pool_dynamics_step params pool count).new_pool := by
  have hp : 0 ≤ pool - count * params.resource_unit := by linarith
  have hbnd := rd_compute_pool_decay_pos_bounds params.decay_params
    (pool - count * params.resource_unit) 1 hd (by decide) hp
  have heq : rd_compute_pool_decay params.decay_params
      (pool - count * params.resource_unit) 1 =
        rd_compute_pool_decay_pos params.decay_params
          (pool - count * params.resource_unit) 1 := by
    unfold rd_compute_pool_decay
    rw [if_neg (by omega)]
  simp only [rc_pool_dynamics_step, heq]
  linarith [hbnd.1, hbnd.2]

/-- Witness for the amended C9 at unit dynamics parameters, pool 0,
count 0. -/
theorem new_pool_nonneg_witness :
    0 ≤ (rc_pool_dynamics_step ⟨1, 0, 0, 0, ⟨0, 0⟩, 0⟩ 0 0).new_pool :=
  new_pool_nonneg ⟨1, 0, 0, 0, ⟨0, 0⟩, 0⟩ 0 0 (by decide) (by decide) (by decide)

/-- C10 counterexample: an extension of a comment-options operation whose
tag is `vote_operation` — neither `comment_payout_beneficiaries` nor
`allowed_vote_assets` — does not raise: the shared `getattr` namespace
finds the registered vote handler, which adds the vote state bytes and
execution time (sample configuration: 470000 and 26500 + 13200 = 39700). -/
theorem extension_with_operation_tag_cex :
    visit size_info exec_info CountOperationVisitor.init
        (Op.comment_options_operation [Op.vote_operation]) =
      .ok { market_op_count := 0, new_account_op_count := 0,
            state_bytes_count := 470000, execution_time_count := 39700 } ∧
    (visit size_info exec_info CountOperationVisitor.init
        (Op.comment_options_operation [Op.vote_operation])).isOk = true :=
  ⟨rfl, rfl⟩

/-- C10 as amended: comment-options extensions are dispatched through the
same handler namespace as top-level operations — a
`comment_payout_beneficiaries` extension adds
`comment_object_beneficiaries_member_size * count(beneficiaries)` to the
state bytes, an `allowed_vote_assets` extension adds nothing, and an
extension whose tag has no registered handler at all makes the visit fail;
an extension tag matching any registered handler (including operation
handlers) invokes that handler instead of raising. -/
theorem comment_options_extension_dispatch (si : SizeInfo) (ei : ExecInfo)
    (s : CountOperationVisitor) (bens : List (String × Int)) (exts : List Op) (tag : String) :
    visit si ei s (Op.comment_options_operation [Op.comment_payout_beneficiaries bens]) =
      .ok { s with
        state_bytes_count := s.state_bytes_count
          + si.comment_object_beneficiaries_member_size * (bens.length : Int)
        execution_time_count := s.execution_time_count
          + ei.comment_options_operation_exec_time } ∧
    visit si ei s (Op.comment_options_operation [Op.allowed_vote_assets]) =
      .ok { s with
        execution_time_count := s.execution_time_count
          + ei.comment_options_operation_exec_time } ∧
    (Op.unknown tag ∈ exts →
      (visit si ei s (Op.comment_options_operation exts)).isOk = false) := by
  refine ⟨rfl, rfl, fun h => ?_⟩
  obtain ⟨e, he⟩ := visitList_unknown_mem si ei tag exts s h
  simp [visit, he, bind, Except.bind, Except.isOk, Except.toBool]

/-- Witness for the amended C10 on the sample configuration: the
beneficiaries extension of the example posts, an `allowed_vote_assets`
extension, and an unregistered extension tag. -/
theorem comment_options_extension_dispatch_witness :
    visit size_info exec_info CountOperationVisitor.init
        (Op.comment_options_operation
          [Op.comment_payout_beneficiaries [("coolui1997", 1000)]]) =
      .ok { CountOperationVisitor.init with
        state_bytes_count := CountOperationVisitor.init.state_bytes_count
          + size_info.comment_object_beneficiaries_member_size
            * (([(("coolui1997" : String), (1000 : Int))].length : Int))
        execution_time_count := CountOperationVisitor.init.execution_time_count
          + exec_info.comment_options_operation_exec_time } ∧
    visit size_info exec_info CountOperationVisitor.init
        (Op.comment_options_operation [Op.allowed_vote_assets]) =
      .ok { CountOperationVisitor.init with
        execution_time_count := CountOperationVisitor.init.execution_time_count
          + exec_info.comment_options_operation_exec_time } ∧
    (visit size_info exec_info CountOperationVisitor.init
        (Op.comment_options_operation [Op.unknown "mystery"])).isOk = false := by
  have h := comment_options_extension_dispatch size_info exec_info CountOperationVisitor.init
    [("coolui1997", 1000)] [Op.unknown "mystery"] "mystery"
  exact ⟨h.1, h.2.1, h.2.2 (by simp)⟩

/-- Witness for the amended C8: on the sample model and the transfer
example transaction the returned usage equals the raw vector
`(282, 0, 282, 55158, 0)` scaled per resource to `(282, 0, 2820, 55158, 0)`. -/
theorem usage_returned_is_scaled_witness :
    (model.count_resources.call transfer_tx 282).map
      (fun u => scale_usage_by_resource_unit model.resource_params u) =
      .ok ((⟨⟨282, 0, 2820, 55158, 0⟩,
        ⟨89229198, 0, 495184050, 26316551, 0⟩⟩ : TxRcCost).usage) :=
  usage_returned_is_scaled model transfer_tx 282
    ⟨⟨282, 0, 2820, 55158, 0⟩, ⟨89229198, 0, 495184050, 26316551, 0⟩⟩ rfl
